import Mathlib

/-!
Verification of the todolist Angular frontend
(`src/frontend/src/app/todo-api.service.ts` and
`src/frontend/src/app/app.component.ts`).

The TypeScript code is shallowly embedded: the service's observable state
(`todosSubject`, `loadingSubject`, `errorSubject`, `lastSyncedSubject`,
`activeFetchRequests`) becomes an explicit `ServiceState` record, and each
HTTP-backed operation is split into its dispatch (what happens when the
method is called: `beginRequest`) and its settlement (what `handleRequest`'s
`tap` / `catchError` / `finalize` pipeline does when the request succeeds or
fails).  The component's fields become an `AppState` record; a component
operation returns the new state together with the HTTP request it issues
(`none` when no network call is made).
-/

/-- Model of a JS whitespace character, as used by `String.prototype.trim`. -/
def isJsWhitespace (c : Char) : Bool := c.isWhitespace

/-- Remove trailing whitespace from a character list (right half of JS trim). -/
def rstrip : List Char → List Char
  | [] => []
  | c :: cs =>
    match rstrip cs with
    | [] => if isJsWhitespace c then [] else [c]
    | r => c :: r

/-- Model of `String.prototype.trim`: drop leading whitespace, then trailing. -/
def jsTrim (s : String) : String :=
  ⟨rstrip (s.data.dropWhile isJsWhitespace)⟩

/-- The `Todo` interface of `todo-api.service.ts`. -/
structure Todo where
  id : Nat
  title : String
  completed : Bool
  createdAt : String
  updatedAt : String
deriving DecidableEq, Repr

/-- The `TodoUpdatePayload` interface: an optional title and/or flag. -/
structure TodoUpdatePayload where
  title : Option String
  completed : Option Bool
deriving DecidableEq, Repr

/-- Opaque model of the error object an HTTP failure carries. -/
abbrev HttpError := Nat

/-- The `mode` option of `handleRequest`. -/
inductive RequestMode where
  | fetch
  | mutate
deriving DecidableEq, Repr

namespace TodoApiService

/-- The observable state held by `TodoApiService`: the four subjects'
current values plus the `activeFetchRequests` counter. -/
structure ServiceState where
  todos : List Todo
  loading : Bool
  error : Option String
  lastSynced : Option String
  activeFetchRequests : Nat
deriving DecidableEq, Repr

/-- Initial subject values: empty list, not loading, no error, never synced. -/
def initialState : ServiceState :=
  { todos := [], loading := false, error := none, lastSynced := none,
    activeFetchRequests := 0 }

/-- The `snapshot` getter: synchronous read of the current list. -/
def snapshot (s : ServiceState) : List Todo := s.todos

/-- `beginRequest`: for a fetch, increment the counter and publish
`loading = true` when it becomes 1; mutating requests are untouched. -/
def beginRequest (mode : RequestMode) (s : ServiceState) : ServiceState :=
  match mode with
  | .fetch =>
    let n := s.activeFetchRequests + 1
    { s with activeFetchRequests := n,
             loading := if n = 1 then true else s.loading }
  | .mutate => s

/-- `endRequest`: for a fetch, decrement the counter clamped at 0
(`Math.max(0, x - 1)` is truncated subtraction on `Nat`) and publish
`loading = false` when it reaches 0. -/
def endRequest (mode : RequestMode) (s : ServiceState) : ServiceState :=
  match mode with
  | .fetch =>
    let n := s.activeFetchRequests - 1
    { s with activeFetchRequests := n,
             loading := if n = 0 then false else s.loading }
  | .mutate => s

/-- Settlement half of `handleRequest`: on a successful response run the
`onSuccess` callback then clear the error subject (`tap`); on failure
publish the operation's error message and re-raise the error
(`catchError` + `throwError`); in both cases `finalize` runs `endRequest`. -/
def handleSettle {α : Type} (onSuccess : α → ServiceState → ServiceState)
    (errorMessage : String) (mode : RequestMode)
    (result : Except HttpError α) (s : ServiceState) :
    ServiceState × Except HttpError α :=
  match result with
  | .ok v =>
    let s1 := onSuccess v s
    let s2 := { s1 with error := none }
    (endRequest mode s2, .ok v)
  | .error e =>
    let s1 := { s with error := some errorMessage }
    (endRequest mode s1, .error e)

/-- Error string of `refresh`. -/
def refreshErrorMessage : String := "タスクの取得に失敗しました。"

/-- Error string of `create`. -/
def createErrorMessage : String := "タスクの追加に失敗しました。"

/-- Default error string of `update`. -/
def defaultUpdateErrorMessage : String := "タスクの更新に失敗しました。"

/-- Error string of the single-task `delete` operation. -/
def deleteErrorMessage : String := "タスクの削除に失敗しました。"

/-- Error string of `deleteAll`. -/
def deleteAllErrorMessage : String := "全件削除に失敗しました。"

/-- `refresh` success callback: replace the list, stamp `lastSynced`. -/
def refreshOnSuccess (now : String) (todos : List Todo)
    (s : ServiceState) : ServiceState :=
  { s with todos := todos, lastSynced := some now }

/-- `create` success callback: prepend the created record. -/
def createOnSuccess (created : Todo) (s : ServiceState) : ServiceState :=
  { s with todos := created :: s.todos }

/-- `update` success callback: replace items whose id matches the response. -/
def updateOnSuccess (updated : Todo) (s : ServiceState) : ServiceState :=
  { s with todos :=
      s.todos.map fun item => if item.id = updated.id then updated else item }

/-- `delete` success callback: remove the item with the requested id. -/
def deleteOnSuccess (id : Nat) (s : ServiceState) : ServiceState :=
  { s with todos := s.todos.filter fun item => item.id ≠ id }

/-- `deleteAll` success callback: empty the list, stamp `lastSynced`. -/
def deleteAllOnSuccess (now : String) (s : ServiceState) : ServiceState :=
  { s with todos := [], lastSynced := some now }

/-- Calling `refresh()` dispatches a fetch-mode request. -/
def refreshDispatch (s : ServiceState) : ServiceState :=
  beginRequest .fetch s

/-- Calling any of the four mutating methods dispatches a mutate-mode
request, which leaves the service state unchanged at dispatch time. -/
def mutateDispatch (s : ServiceState) : ServiceState :=
  beginRequest .mutate s

/-- Settlement of a `refresh` request. -/
def refreshSettle (now : String) (result : Except HttpError (List Todo))
    (s : ServiceState) : ServiceState × Except HttpError (List Todo) :=
  handleSettle (refreshOnSuccess now) refreshErrorMessage .fetch result s

/-- Settlement of a `create` request. -/
def createSettle (result : Except HttpError Todo) (s : ServiceState) :
    ServiceState × Except HttpError Todo :=
  handleSettle createOnSuccess createErrorMessage .mutate result s

/-- Settlement of an `update` request (the caller chose `errorMessage`). -/
def updateSettle (errorMessage : String) (result : Except HttpError Todo)
    (s : ServiceState) : ServiceState × Except HttpError Todo :=
  handleSettle updateOnSuccess errorMessage .mutate result s

/-- Settlement of a `delete` request (the response body is `void`). -/
def deleteSettle (id : Nat) (result : Except HttpError Unit)
    (s : ServiceState) : ServiceState × Except HttpError Unit :=
  handleSettle (fun _ => deleteOnSuccess id) deleteErrorMessage .mutate result s

/-- Settlement of a `deleteAll` request (the response body is `void`). -/
def deleteAllSettle (now : String) (result : Except HttpError Unit)
    (s : ServiceState) : ServiceState × Except HttpError Unit :=
  handleSettle (fun _ => deleteAllOnSuccess now) deleteAllErrorMessage .mutate
    result s

/-- `clearError`: reset the published error message. -/
def clearError (s : ServiceState) : ServiceState :=
  { s with error := none }

/-- One observable event on the service: a method call (dispatch) or the
settlement of an outstanding request, plus `clearError`. -/
inductive ServiceStep where
  | refreshDispatchStep
  | refreshSettleStep (now : String) (result : Except HttpError (List Todo))
  | createDispatchStep
  | createSettleStep (result : Except HttpError Todo)
  | updateDispatchStep
  | updateSettleStep (errorMessage : String) (result : Except HttpError Todo)
  | deleteDispatchStep (id : Nat)
  | deleteSettleStep (id : Nat) (result : Except HttpError Unit)
  | deleteAllDispatchStep
  | deleteAllSettleStep (now : String) (result : Except HttpError Unit)
  | clearErrorStep

/-- Effect of one `ServiceStep` on the service state. -/
def serviceStep (e : ServiceStep) (s : ServiceState) : ServiceState :=
  match e with
  | .refreshDispatchStep => refreshDispatch s
  | .refreshSettleStep now result => (refreshSettle now result s).1
  | .createDispatchStep => mutateDispatch s
  | .createSettleStep result => (createSettle result s).1
  | .updateDispatchStep => mutateDispatch s
  | .updateSettleStep errorMessage result => (updateSettle errorMessage result s).1
  | .deleteDispatchStep _ => mutateDispatch s
  | .deleteSettleStep id result => (deleteSettle id result s).1
  | .deleteAllDispatchStep => mutateDispatch s
  | .deleteAllSettleStep now result => (deleteAllSettle now result s).1
  | .clearErrorStep => clearError s

/-- Whether a step belongs to one of the mutating calls
(create, update, delete, deleteAll). -/
def isMutatingStep : ServiceStep → Bool
  | .createDispatchStep => true
  | .createSettleStep _ => true
  | .updateDispatchStep => true
  | .updateSettleStep _ _ => true
  | .deleteDispatchStep _ => true
  | .deleteSettleStep _ _ => true
  | .deleteAllDispatchStep => true
  | .deleteAllSettleStep _ _ => true
  | _ => false

/-- State reached from the initial state after a sequence of steps. -/
def runService (steps : List ServiceStep) : ServiceState :=
  steps.foldl (fun s e => serviceStep e s) initialState

end TodoApiService

namespace AppComponent

open TodoApiService

/-- The request a component operation hands to the service (hence to
`HttpClient`); `none` when the operation makes no network call. -/
inductive ApiCall where
  | refreshReq
  | createReq (title : String)
  | updateReq (id : Nat) (payload : TodoUpdatePayload) (errorMessage : String)
  | deleteReq (id : Nat)
  | deleteAllReq
deriving DecidableEq, Repr

/-- The component's own fields of `AppComponent` together with the injected
service's state. -/
structure AppState where
  service : ServiceState
  newTodoTitle : String
  editingTodoId : Option Nat
  editingTitle : String
  formError : Option String
deriving DecidableEq, Repr

/-- `pendingTodos$` projection: tasks with `completed = false`. -/
def pendingTodos (todos : List Todo) : List Todo :=
  todos.filter fun todo => !todo.completed

/-- `completedTodos$` projection: tasks with `completed = true`. -/
def completedTodos (todos : List Todo) : List Todo :=
  todos.filter fun todo => todo.completed

/-- Validation message shown when the add form is submitted empty. -/
def addValidationMessage : String := "タスク名を入力してください。"

/-- Validation message shown when an edit is submitted empty. -/
def editValidationMessage : String := "タスク名は空にできません。"

/-- Error string the component passes to `update` when toggling. -/
def toggleErrorMessage : String := "完了状態の更新に失敗しました。"

/-- Error string the component passes to `update` when renaming. -/
def editErrorMessage : String := "タスク名の更新に失敗しました。"

/-- `addTodo()`: trim the input; if empty, set the validation message and
stop; otherwise dispatch `create` with the trimmed title. -/
def addTodoDispatch (s : AppState) : AppState × Option ApiCall :=
  let title := jsTrim s.newTodoTitle
  if title = "" then
    ({ s with formError := some addValidationMessage }, none)
  else
    ({ s with service := mutateDispatch s.service }, some (.createReq title))

/-- Settlement of the `create` request subscribed to in `addTodo`: the
service settles first, then on success the subscriber clears the input and
the form error; the error handler does nothing. -/
def addTodoSettle (result : Except HttpError Todo) (s : AppState) :
    AppState × Except HttpError Todo :=
  let p := TodoApiService.createSettle result s.service
  match result with
  | .ok _ => ({ s with service := p.1, newTodoTitle := "", formError := none }, p.2)
  | .error _ => ({ s with service := p.1 }, p.2)

/-- `toggleCompleted(todo)`: dispatch `update` with the flipped flag. -/
def toggleCompletedDispatch (todo : Todo) (s : AppState) :
    AppState × Option ApiCall :=
  ({ s with service := mutateDispatch s.service },
   some (.updateReq todo.id ⟨none, some (!todo.completed)⟩ toggleErrorMessage))

/-- Settlement of the `update` request subscribed to in `toggleCompleted`. -/
def toggleCompletedSettle (result : Except HttpError Todo) (s : AppState) :
    AppState × Except HttpError Todo :=
  let p := TodoApiService.updateSettle toggleErrorMessage result s.service
  match result with
  | .ok _ => ({ s with service := p.1, formError := none }, p.2)
  | .error _ => ({ s with service := p.1 }, p.2)

/-- `startEditing(todo)`: record the target id and a working copy of the
title, clearing any form error. -/
def startEditing (todo : Todo) (s : AppState) : AppState :=
  { s with editingTodoId := some todo.id, editingTitle := todo.title,
           formError := none }

/-- `resetEditing()`: leave edit mode and clear the draft. -/
def resetEditing (s : AppState) : AppState :=
  { s with editingTodoId := none, editingTitle := "" }

/-- `submitEdit(todo)`: ignore when another row is being edited; an empty
trimmed draft sets the validation message and cancels the edit; a draft
whose trimmed form equals the title cancels the edit silently; otherwise
dispatch `update` with the trimmed title. -/
def submitEdit (todo : Todo) (s : AppState) : AppState × Option ApiCall :=
  if s.editingTodoId ≠ some todo.id then (s, none)
  else
    let trimmed := jsTrim s.editingTitle
    if trimmed = "" then
      (resetEditing { s with formError := some editValidationMessage }, none)
    else if trimmed = todo.title then
      (resetEditing s, none)
    else
      ({ s with service := mutateDispatch s.service },
       some (.updateReq todo.id ⟨some trimmed, none⟩ editErrorMessage))

/-- Settlement of the `update` request subscribed to in `submitEdit`. -/
def submitEditSettle (result : Except HttpError Todo) (s : AppState) :
    AppState × Except HttpError Todo :=
  let p := TodoApiService.updateSettle editErrorMessage result s.service
  match result with
  | .ok _ => (resetEditing { s with service := p.1, formError := none }, p.2)
  | .error _ => ({ s with service := p.1 }, p.2)

/-- `deleteTodo(todo)`: dispatch `delete` for that id. -/
def deleteTodoDispatch (todo : Todo) (s : AppState) : AppState × Option ApiCall :=
  ({ s with service := mutateDispatch s.service }, some (.deleteReq todo.id))

/-- Settlement of the `delete` request subscribed to in `deleteTodo`. -/
def deleteTodoSettle (id : Nat) (result : Except HttpError Unit) (s : AppState) :
    AppState × Except HttpError Unit :=
  let p := TodoApiService.deleteSettle id result s.service
  match result with
  | .ok _ => ({ s with service := p.1, formError := none }, p.2)
  | .error _ => ({ s with service := p.1 }, p.2)

/-- `clearAll()`: a no-op when the synchronous snapshot is empty, otherwise
dispatch `deleteAll`. -/
def clearAll (s : AppState) : AppState × Option ApiCall :=
  if (TodoApiService.snapshot s.service).length = 0 then (s, none)
  else ({ s with service := mutateDispatch s.service }, some .deleteAllReq)

/-- Settlement of the `deleteAll` request subscribed to in `clearAll`. -/
def clearAllSettle (now : String) (result : Except HttpError Unit)
    (s : AppState) : AppState × Except HttpError Unit :=
  let p := TodoApiService.deleteAllSettle now result s.service
  match result with
  | .ok _ => ({ s with service := p.1, formError := none }, p.2)
  | .error _ => ({ s with service := p.1 }, p.2)

/-- `loadTodos()` (used by `ngOnInit` and `refresh()`): dispatch the fetch. -/
def loadTodosDispatch (s : AppState) : AppState × Option ApiCall :=
  ({ s with service := refreshDispatch s.service }, some .refreshReq)

/-- Settlement of the `refresh` request subscribed to in `loadTodos`. -/
def loadTodosSettle (now : String) (result : Except HttpError (List Todo))
    (s : AppState) : AppState × Except HttpError (List Todo) :=
  let p := TodoApiService.refreshSettle now result s.service
  match result with
  | .ok _ => ({ s with service := p.1, formError := none }, p.2)
  | .error _ => ({ s with service := p.1 }, p.2)

end AppComponent

/-- The server response `toggleCompleted` expects: the task with its
completion flag flipped, identifier and title untouched. -/
def flipCompleted (t : Todo) : Todo :=
  { t with completed := !t.completed }

/-! ### Helper lemmas about `jsTrim` -/

theorem dropWhile_head_false {α : Type} {p : α → Bool} {l : List α} {c : α}
    {cs : List α} (h : l.dropWhile p = c :: cs) : p c = false := by
  have hh := List.head?_dropWhile_not p l
  rw [h] at hh
  simpa using hh

theorem dropWhile_self {α : Type} (p : α → Bool) (l : List α) :
    (l.dropWhile p).dropWhile p = l.dropWhile p := by
  cases h : l.dropWhile p with
  | nil => rfl
  | cons c cs =>
    have hc := dropWhile_head_false h
    simp [List.dropWhile, hc]

theorem rstrip_shape (c : Char) (cs : List Char) :
    rstrip (c :: cs) = [] ∨ ∃ r, rstrip (c :: cs) = c :: r := by
  rw [rstrip]
  cases h : rstrip cs with
  | nil =>
    by_cases hw : isJsWhitespace c
    · left; simp [hw]
    · right; exact ⟨[], by simp [hw]⟩
  | cons x xs => right; exact ⟨x :: xs, rfl⟩

theorem dropWhile_rstrip_of_fix {l : List Char}
    (h : l.dropWhile isJsWhitespace = l) :
    (rstrip l).dropWhile isJsWhitespace = rstrip l := by
  cases l with
  | nil => rfl
  | cons c cs =>
    have hc : isJsWhitespace c = false := dropWhile_head_false h
    rcases rstrip_shape c cs with hr | ⟨r, hr⟩
    · rw [hr]; rfl
    · rw [hr]; simp [List.dropWhile, hc]

theorem rstrip_idem (l : List Char) : rstrip (rstrip l) = rstrip l := by
  induction l with
  | nil => rfl
  | cons c cs ih =>
    rw [rstrip]
    cases h : rstrip cs with
    | nil =>
      by_cases hw : isJsWhitespace c
      · simp [hw, rstrip]
      · simp [hw, rstrip]
    | cons x xs =>
      rw [h] at ih
      simp only
      rw [rstrip, ih]

theorem jsTrim_idem (s : String) : jsTrim (jsTrim s) = jsTrim s := by
  show (⟨rstrip ((rstrip (s.data.dropWhile isJsWhitespace)).dropWhile
      isJsWhitespace)⟩ : String) = ⟨rstrip (s.data.dropWhile isJsWhitespace)⟩
  rw [dropWhile_rstrip_of_fix (dropWhile_self isJsWhitespace s.data),
    rstrip_idem]

theorem jsTrim_eq_empty_of_all_ws {s : String}
    (h : ∀ c ∈ s.data, isJsWhitespace c = true) : jsTrim s = "" := by
  show (⟨rstrip (s.data.dropWhile isJsWhitespace)⟩ : String) = ""
  rw [List.dropWhile_eq_nil_iff.mpr h]
  rfl

/-! ### Helper lemmas for the loading-flag invariant -/

open TodoApiService in
theorem serviceStep_inv (e : ServiceStep) (s : ServiceState)
    (h : s.loading = true ↔ 0 < s.activeFetchRequests) :
    ((serviceStep e s).loading = true
      ↔ 0 < (serviceStep e s).activeFetchRequests) := by
  cases e with
  | refreshDispatchStep =>
    simp only [serviceStep, refreshDispatch, beginRequest]
    split
    · simp_all
    · rw [h]; omega
  | refreshSettleStep now result =>
    cases result <;>
      · simp only [serviceStep, refreshSettle, handleSettle, endRequest,
          refreshOnSuccess]
        split
        · simp_all
        · rw [h]; omega
  | createDispatchStep => exact h
  | createSettleStep result =>
    cases result <;> simpa [serviceStep, createSettle, handleSettle,
      endRequest, createOnSuccess] using h
  | updateDispatchStep => exact h
  | updateSettleStep errorMessage result =>
    cases result <;> simpa [serviceStep, updateSettle, handleSettle,
      endRequest, updateOnSuccess] using h
  | deleteDispatchStep id => exact h
  | deleteSettleStep id result =>
    cases result <;> simpa [serviceStep, deleteSettle, handleSettle,
      endRequest, deleteOnSuccess] using h
  | deleteAllDispatchStep => exact h
  | deleteAllSettleStep now result =>
    cases result <;> simpa [serviceStep, deleteAllSettle, handleSettle,
      endRequest, deleteAllOnSuccess] using h
  | clearErrorStep => exact h

open TodoApiService in
theorem foldl_serviceStep_inv (steps : List ServiceStep) :
    ∀ s : ServiceState, (s.loading = true ↔ 0 < s.activeFetchRequests) →
      ((steps.foldl (fun s e => serviceStep e s) s).loading = true
        ↔ 0 < (steps.foldl (fun s e => serviceStep e s) s).activeFetchRequests) := by
  induction steps with
  | nil => intro s h; exact h
  | cons e t ih => intro s h; exact ih _ (serviceStep_inv e s h)

/-! ### Claim theorems -/

open TodoApiService in
/-- C9: in every state reachable from the initial state, the published
loading flag is true exactly when at least one fetch request is
outstanding; a refresh dispatch increments the outstanding-fetch counter,
its settlement decrements it (truncated at zero), and the mutating calls
(create, update, delete, deleteAll) change neither the loading flag nor
the counter. -/
theorem loading_tracks_outstanding_fetches :
    (∀ steps : List ServiceStep,
      ((runService steps).loading = true
        ↔ 0 < (runService steps).activeFetchRequests))
    ∧ (∀ s : ServiceState,
      (serviceStep .refreshDispatchStep s).activeFetchRequests
        = s.activeFetchRequests + 1)
    ∧ (∀ (s : ServiceState) (now : String)
        (result : Except HttpError (List Todo)),
      (serviceStep (.refreshSettleStep now result) s).activeFetchRequests
        = s.activeFetchRequests - 1)
    ∧ (∀ (s : ServiceState) (e : ServiceStep), isMutatingStep e = true →
      (serviceStep e s).loading = s.loading
        ∧ (serviceStep e s).activeFetchRequests = s.activeFetchRequests) := by
  refine ⟨fun steps => foldl_serviceStep_inv steps initialState (by simp [initialState]),
    fun s => rfl, fun s now result => ?_, fun s e he => ?_⟩
  · cases result <;> rfl
  · cases e with
    | createSettleStep result =>
      cases result <;> simp [serviceStep, createSettle, handleSettle,
        endRequest, createOnSuccess]
    | updateSettleStep errorMessage result =>
      cases result <;> simp [serviceStep, updateSettle, handleSettle,
        endRequest, updateOnSuccess]
    | deleteSettleStep id result =>
      cases result <;> simp [serviceStep, deleteSettle, handleSettle,
        endRequest, deleteOnSuccess]
    | deleteAllSettleStep now result =>
      cases result <;> simp [serviceStep, deleteAllSettle, handleSettle,
        endRequest, deleteAllOnSuccess]
    | createDispatchStep => exact ⟨rfl, rfl⟩
    | updateDispatchStep => exact ⟨rfl, rfl⟩
    | deleteDispatchStep id => exact ⟨rfl, rfl⟩
    | deleteAllDispatchStep => exact ⟨rfl, rfl⟩
    | refreshDispatchStep => exact absurd he (by simp [isMutatingStep])
    | refreshSettleStep now result => exact absurd he (by simp [isMutatingStep])
    | clearErrorStep => exact absurd he (by simp [isMutatingStep])

open TodoApiService in
/-- Witness for C9 at a concrete step list and a concrete mutating step. -/
theorem loading_tracks_outstanding_fetches_witness :
    ((runService [ServiceStep.refreshDispatchStep]).loading = true
      ↔ 0 < (runService [ServiceStep.refreshDispatchStep]).activeFetchRequests)
    ∧ ((serviceStep ServiceStep.createDispatchStep initialState).loading
        = initialState.loading
      ∧ (serviceStep ServiceStep.createDispatchStep
          initialState).activeFetchRequests
        = initialState.activeFetchRequests) :=
  ⟨loading_tracks_outstanding_fetches.1 [ServiceStep.refreshDispatchStep],
   loading_tracks_outstanding_fetches.2.2.2 initialState
     ServiceStep.createDispatchStep (by decide)⟩

open TodoApiService in
/-- C1: when any of the five requests settles with an HTTP failure, the
success callback is never applied — the task list (and, for refresh and
deleteAll, the last-synced timestamp) is unchanged — the published error
becomes the operation's Japanese message, the failure is re-raised to the
caller, and for refresh the loading flag is false once no fetch remains
outstanding; the mutating settlements leave the loading flag alone. -/
theorem request_failure_preserves_state (s : ServiceState)
    (now errMsg : String) (e : HttpError) (id : Nat) :
    ((refreshSettle now (.error e) s).1.todos = s.todos
      ∧ (refreshSettle now (.error e) s).1.lastSynced = s.lastSynced
      ∧ (refreshSettle now (.error e) s).1.error = some refreshErrorMessage
      ∧ (refreshSettle now (.error e) s).2 = .error e
      ∧ ((refreshSettle now (.error e) s).1.activeFetchRequests = 0 →
          (refreshSettle now (.error e) s).1.loading = false))
    ∧ ((createSettle (.error e) s).1.todos = s.todos
      ∧ (createSettle (.error e) s).1.error = some createErrorMessage
      ∧ (createSettle (.error e) s).2 = .error e
      ∧ (createSettle (.error e) s).1.loading = s.loading)
    ∧ ((updateSettle errMsg (.error e) s).1.todos = s.todos
      ∧ (updateSettle errMsg (.error e) s).1.error = some errMsg
      ∧ (updateSettle errMsg (.error e) s).2 = .error e
      ∧ (updateSettle errMsg (.error e) s).1.loading = s.loading)
    ∧ ((deleteSettle id (.error e) s).1.todos = s.todos
      ∧ (deleteSettle id (.error e) s).1.error = some deleteErrorMessage
      ∧ (deleteSettle id (.error e) s).2 = .error e
      ∧ (deleteSettle id (.error e) s).1.loading = s.loading)
    ∧ ((deleteAllSettle now (.error e) s).1.todos = s.todos
      ∧ (deleteAllSettle now (.error e) s).1.lastSynced = s.lastSynced
      ∧ (deleteAllSettle now (.error e) s).1.error = some deleteAllErrorMessage
      ∧ (deleteAllSettle now (.error e) s).2 = .error e
      ∧ (deleteAllSettle now (.error e) s).1.loading = s.loading) := by
  refine ⟨⟨rfl, rfl, rfl, rfl, fun h0 => ?_⟩,
    ⟨rfl, rfl, rfl, rfl⟩, ⟨rfl, rfl, rfl, rfl⟩,
    ⟨rfl, rfl, rfl, rfl⟩, ⟨rfl, rfl, rfl, rfl, rfl⟩⟩
  simp only [refreshSettle, handleSettle, endRequest] at h0 ⊢
  simp [h0]

open TodoApiService in
/-- Witness for C1: a failing refresh on a state with one outstanding
fetch ends with the loading flag off. -/
theorem request_failure_preserves_state_witness :
    (refreshSettle "t" (.error 7)
      (⟨[⟨1, "A", false, "c", "u"⟩], true, none, none, 1⟩ :
        ServiceState)).1.loading = false :=
  (request_failure_preserves_state
    ⟨[⟨1, "A", false, "c", "u"⟩], true, none, none, 1⟩
    "t" "m" 7 3).1.2.2.2.2 (by decide)

/-- C2: submitting an input that is empty or made only of whitespace sets
the local validation message and produces no network call; every other
field of the component and service state is unchanged. -/
theorem addTodo_whitespace_rejected (s : AppComponent.AppState)
    (h : ∀ c ∈ s.newTodoTitle.data, isJsWhitespace c = true) :
    AppComponent.addTodoDispatch s =
      ({ s with formError := some AppComponent.addValidationMessage }, none) := by
  simp [AppComponent.addTodoDispatch, jsTrim_eq_empty_of_all_ws h]

/-- Witness for C2 on the whitespace-only input `"  "`. -/
theorem addTodo_whitespace_rejected_witness :
    AppComponent.addTodoDispatch
        ⟨TodoApiService.initialState, "  ", none, "", none⟩ =
      (⟨TodoApiService.initialState, "  ", none, "",
        some AppComponent.addValidationMessage⟩, none) :=
  addTodo_whitespace_rejected
    ⟨TodoApiService.initialState, "  ", none, "", none⟩ (by decide)

/-- C10: when the trimmed input is non-empty, the add operation dispatches
`create` with exactly the trimmed title, which has no surrounding
whitespace (trimming it again changes nothing). -/
theorem addTodo_sends_trimmed_title (s : AppComponent.AppState)
    (h : jsTrim s.newTodoTitle ≠ "") :
    (AppComponent.addTodoDispatch s).2 =
        some (AppComponent.ApiCall.createReq (jsTrim s.newTodoTitle))
    ∧ jsTrim (jsTrim s.newTodoTitle) = jsTrim s.newTodoTitle := by
  constructor
  · simp [AppComponent.addTodoDispatch, h]
  · exact jsTrim_idem _

/-- Witness for C10 on the input `" B "`. -/
theorem addTodo_sends_trimmed_title_witness :
    (AppComponent.addTodoDispatch
        ⟨TodoApiService.initialState, " B ", none, "", none⟩).2 =
      some (AppComponent.ApiCall.createReq (jsTrim " B "))
    ∧ jsTrim (jsTrim " B ") = jsTrim " B " :=
  addTodo_sends_trimmed_title
    ⟨TodoApiService.initialState, " B ", none, "", none⟩ (by decide)

/-- C3: a successful create prepends the server's record to the previous
list (new task at the head, prior tasks unchanged in order) and clears the
component's input field. -/
theorem create_success_prepends_and_clears (s : AppComponent.AppState)
    (created : Todo) :
    (AppComponent.addTodoSettle (.ok created) s).1.service.todos
        = created :: s.service.todos
    ∧ (AppComponent.addTodoSettle (.ok created) s).1.newTodoTitle = "" :=
  ⟨rfl, rfl⟩

/-- C8: when the service's synchronous snapshot is empty, `clearAll` makes
no network call and leaves the whole state unchanged. -/
theorem clearAll_empty_snapshot_noop (s : AppComponent.AppState)
    (h : TodoApiService.snapshot s.service = []) :
    AppComponent.clearAll s = (s, none) := by
  simp [AppComponent.clearAll, h]

/-- Witness for C8 on a state whose local list is empty. -/
theorem clearAll_empty_snapshot_noop_witness :
    AppComponent.clearAll
        ⟨TodoApiService.initialState, "x", none, "", none⟩ =
      (⟨TodoApiService.initialState, "x", none, "", none⟩, none) :=
  clearAll_empty_snapshot_noop
    ⟨TodoApiService.initialState, "x", none, "", none⟩ (by decide)

/-- C4: after a successful delete of an identifier, no task with that
identifier remains in the local list or in either derived partition, and
the remaining list is exactly the tasks with other identifiers in their
original order. -/
theorem delete_success_removes_id (s : AppComponent.AppState) (id : Nat) :
    (∀ t ∈ (AppComponent.deleteTodoSettle id (.ok ()) s).1.service.todos,
      t.id ≠ id)
    ∧ (∀ t ∈ AppComponent.pendingTodos
        ((AppComponent.deleteTodoSettle id (.ok ()) s).1.service.todos),
      t.id ≠ id)
    ∧ (∀ t ∈ AppComponent.completedTodos
        ((AppComponent.deleteTodoSettle id (.ok ()) s).1.service.todos),
      t.id ≠ id)
    ∧ List.Sublist
        ((AppComponent.deleteTodoSettle id (.ok ()) s).1.service.todos)
        s.service.todos
    ∧ (∀ t ∈ s.service.todos, t.id ≠ id →
        t ∈ (AppComponent.deleteTodoSettle id (.ok ()) s).1.service.todos) := by
  have key : (AppComponent.deleteTodoSettle id (.ok ()) s).1.service.todos
      = s.service.todos.filter (fun t => t.id ≠ id) := rfl
  refine ⟨?_, ?_, ?_, ?_, ?_⟩
  · intro t ht
    rw [key] at ht
    simpa using (List.mem_filter.mp ht).2
  · intro t ht
    have ht' := (List.mem_filter.mp ht).1
    rw [key] at ht'
    simpa using (List.mem_filter.mp ht').2
  · intro t ht
    have ht' := (List.mem_filter.mp ht).1
    rw [key] at ht'
    simpa using (List.mem_filter.mp ht').2
  · rw [key]
    exact List.filter_sublist _
  · intro t ht hne
    rw [key]
    exact List.mem_filter.mpr ⟨ht, by simpa using hne⟩

/-- Witness for C4: deleting id 1 keeps the task with id 2. -/
theorem delete_success_removes_id_witness :
    (⟨2, "B", true, "c", "u"⟩ : Todo) ∈
      (AppComponent.deleteTodoSettle 1 (.ok ())
        ⟨⟨[⟨1, "A", false, "c", "u"⟩, ⟨2, "B", true, "c", "u"⟩],
          false, none, none, 0⟩, "", none, "", none⟩).1.service.todos :=
  (delete_success_removes_id
    ⟨⟨[⟨1, "A", false, "c", "u"⟩, ⟨2, "B", true, "c", "u"⟩],
      false, none, none, 0⟩, "", none, "", none⟩ 1).2.2.2.2
    ⟨2, "B", true, "c", "u"⟩ (by decide) (by decide)

/-- C5: when a toggled task's update succeeds with the flipped record, that
record keeps its identifier and title, enters the list in place of the old
record, and swaps partitions: a pending task's flipped record lands in the
completed partition and not in the pending one, and symmetrically. -/
theorem toggle_success_swaps_partition (s : AppComponent.AppState) (t : Todo)
    (h : t ∈ s.service.todos) :
    (flipCompleted t).id = t.id
    ∧ (flipCompleted t).title = t.title
    ∧ flipCompleted t ∈
        (AppComponent.toggleCompletedSettle (.ok (flipCompleted t))
          s).1.service.todos
    ∧ t ∉
        (AppComponent.toggleCompletedSettle (.ok (flipCompleted t))
          s).1.service.todos
    ∧ (t.completed = false →
        t ∈ AppComponent.pendingTodos s.service.todos
        ∧ flipCompleted t ∈ AppComponent.completedTodos
            ((AppComponent.toggleCompletedSettle (.ok (flipCompleted t))
              s).1.service.todos)
        ∧ flipCompleted t ∉ AppComponent.pendingTodos
            ((AppComponent.toggleCompletedSettle (.ok (flipCompleted t))
              s).1.service.todos))
    ∧ (t.completed = true →
        t ∈ AppComponent.completedTodos s.service.todos
        ∧ flipCompleted t ∈ AppComponent.pendingTodos
            ((AppComponent.toggleCompletedSettle (.ok (flipCompleted t))
              s).1.service.todos)
        ∧ flipCompleted t ∉ AppComponent.completedTodos
            ((AppComponent.toggleCompletedSettle (.ok (flipCompleted t))
              s).1.service.todos)) := by
  have key : (AppComponent.toggleCompletedSettle (.ok (flipCompleted t))
      s).1.service.todos
      = s.service.todos.map
          (fun item => if item.id = (flipCompleted t).id then flipCompleted t
            else item) := rfl
  have hmem : flipCompleted t ∈
      (AppComponent.toggleCompletedSettle (.ok (flipCompleted t))
        s).1.service.todos := by
    rw [key]
    exact List.mem_map.mpr ⟨t, h, by simp [flipCompleted]⟩
  refine ⟨rfl, rfl, hmem, ?_, ?_, ?_⟩
  · intro hmem'
    rw [key] at hmem'
    obtain ⟨a, _, hfa⟩ := List.mem_map.mp hmem'
    by_cases hid : a.id = (flipCompleted t).id
    · rw [if_pos hid] at hfa
      have : (!t.completed) = t.completed := congrArg Todo.completed hfa
      simp at this
    · rw [if_neg hid] at hfa
      exact hid (by simp [hfa, flipCompleted])
  · intro hc
    refine ⟨List.mem_filter.mpr ⟨h, by simp [hc]⟩,
      List.mem_filter.mpr ⟨hmem, by simp [flipCompleted, hc]⟩, ?_⟩
    intro hp
    have := (List.mem_filter.mp hp).2
    simp [flipCompleted, hc] at this
  · intro hc
    refine ⟨List.mem_filter.mpr ⟨h, by simp [hc]⟩,
      List.mem_filter.mpr ⟨hmem, by simp [flipCompleted, hc]⟩, ?_⟩
    intro hp
    have := (List.mem_filter.mp hp).2
    simp [flipCompleted, hc] at this

/-- Witness for C5: toggling the single pending task puts its flipped
record into the completed partition. -/
theorem toggle_success_swaps_partition_witness :
    flipCompleted ⟨1, "A", false, "c", "u"⟩ ∈
      AppComponent.completedTodos
        ((AppComponent.toggleCompletedSettle
          (.ok (flipCompleted ⟨1, "A", false, "c", "u"⟩))
          ⟨⟨[⟨1, "A", false, "c", "u"⟩], false, none, none, 0⟩,
            "", none, "", none⟩).1.service.todos) :=
  ((toggle_success_swaps_partition
      ⟨⟨[⟨1, "A", false, "c", "u"⟩], false, none, none, 0⟩,
        "", none, "", none⟩
      ⟨1, "A", false, "c", "u"⟩ (by decide)).2.2.2.2.1 (by decide)).2.1

/-- C6: a successful update replaces exactly the records whose identifier
matches the response by the returned record, leaves every record with a
different identifier unchanged, and preserves the list's length and
order. -/
theorem update_success_replaces_matching (s : TodoApiService.ServiceState)
    (errMsg : String) (u : Todo) :
    (TodoApiService.updateSettle errMsg (.ok u) s).1.todos.length
        = s.todos.length
    ∧ ∀ i : Nat, (TodoApiService.updateSettle errMsg (.ok u) s).1.todos[i]?
        = (s.todos[i]?).map (fun t => if t.id = u.id then u else t) := by
  have key : (TodoApiService.updateSettle errMsg (.ok u) s).1.todos
      = s.todos.map (fun t => if t.id = u.id then u else t) := rfl
  constructor
  · rw [key, List.length_map]
  · intro i
    rw [key, List.getElem?_map]

/-- C7 counterexample: a task whose title carries surrounding whitespace is
in edit mode with an unchanged draft, yet submitting issues a network call
(the code compares the trimmed draft, not the raw draft, to the title). -/
theorem submitEdit_unchanged_counterexample :
    ((⟨TodoApiService.initialState, "", some 1, " A ", none⟩ :
        AppComponent.AppState).editingTodoId
      = some (⟨1, " A ", false, "c", "u"⟩ : Todo).id)
    ∧ ((⟨TodoApiService.initialState, "", some 1, " A ", none⟩ :
        AppComponent.AppState).editingTitle
      = (⟨1, " A ", false, "c", "u"⟩ : Todo).title)
    ∧ (AppComponent.submitEdit ⟨1, " A ", false, "c", "u"⟩
        ⟨TodoApiService.initialState, "", some 1, " A ", none⟩).2 ≠ none := by
  decide

/-- C7 amended: for the task in edit mode, submitting an empty or
whitespace-only draft exits edit mode with the validation message and no
network call, and submitting a draft whose trimmed form equals the task's
title (in particular an unchanged draft of a title without surrounding
whitespace) exits edit mode with no network call and no other change. -/
theorem submitEdit_noop_cases (s : AppComponent.AppState) (todo : Todo)
    (hid : s.editingTodoId = some todo.id) :
    (jsTrim s.editingTitle = "" →
      AppComponent.submitEdit todo s =
        (AppComponent.resetEditing
          { s with formError := some AppComponent.editValidationMessage },
         none))
    ∧ (jsTrim s.editingTitle ≠ "" → jsTrim s.editingTitle = todo.title →
      AppComponent.submitEdit todo s = (AppComponent.resetEditing s, none)) := by
  constructor
  · intro he
    simp [AppComponent.submitEdit, hid, he]
  · intro hne heq
    rw [heq] at hne
    simp [AppComponent.submitEdit, hid, heq, hne]

/-- Witness for C7's amended claim: an unchanged-up-to-trim draft exits
edit mode without a network call. -/
theorem submitEdit_noop_cases_witness :
    AppComponent.submitEdit (⟨1, "A", false, "c", "u"⟩ : Todo)
        ⟨TodoApiService.initialState, "", some 1, " A ", none⟩ =
      (AppComponent.resetEditing
        ⟨TodoApiService.initialState, "", some 1, " A ", none⟩, none) :=
  (submitEdit_noop_cases
      ⟨TodoApiService.initialState, "", some 1, " A ", none⟩
      ⟨1, "A", false, "c", "u"⟩ (by decide)).2 (by decide) (by decide)
